import Mathlib

/-!
Shallow embedding of the WMML launcher's resolution-and-assembly pipeline
(`WMML.py`): library rule evaluation (`check_library_rules`), library path
resolution (`get_library_path`), classpath construction
(`build_libraries_path`), game-argument templating (`build_game_arguments`),
command synthesis (`build_java_command`), and the launch orchestrator's root
normalization.

Modelling conventions:
- Python strings are Lean `String`s; the Python primitives `str.split(c)`,
  `str.replace`, `str.join`, `str.strip`, `str.endswith`, `str.startswith`
  are re-implemented structurally (`pySplitChar`, `pyReplace`, `pyJoin`,
  `pyStrip`, `pyEndsWith`, `pyStartsWith`) so that they evaluate in the
  kernel. Semantics follow CPython for the inputs this program produces
  (separators are single characters; replacement patterns are non-empty).
- The POSIX flavour of `os.sep` / `os.pathsep` is modelled (`/` and `:`).
  `pathlib.Path` string normalization (collapsing duplicate separators and
  single-dot components, stripping trailing separators) is `pathOfString`;
  joining a normalized path with a relative component (`Path.__truediv__`)
  is `joinPath`.
- `platform.machine()` is environment-dependent and is passed as the
  `machine : String` parameter. The source hardcodes the OS name `windows`.
- Filesystem existence checks (`Path.exists`) are passed as a parameter
  `ex : String → Bool`.
- Python exceptions inside `get_library_path`'s `try` block are modelled by
  `Except String`: `get_library_path_inner` is the `try` body (an out-of-range
  subscript on the split coordinate yields `.error`), and `get_library_path`
  is the whole function including the catch-all `except` clause, which maps
  any raised error to `none`.
- Dict truthiness: `options.get` defaults are modelled with `Option.getD`;
  the truthiness test `and memory` on an integer is `memory ≠ 0`.
-/

namespace WMML

/-- Python `s.split(c)` for a single-character separator, on `List Char`:
splitting the empty list gives `[[]]`, like `''.split(c) == ['']`. -/
def splitOnCharList (c : Char) : List Char → List (List Char)
  | [] => [[]]
  | x :: xs =>
    let r := splitOnCharList c xs
    if x = c then [] :: r
    else match r with
      | h :: t => (x :: h) :: t
      | [] => [[x]]

/-- Python `s.split(c)` for a single-character separator. -/
def pySplitChar (c : Char) (s : String) : List String :=
  (splitOnCharList c s.data).map String.mk

/-- Left-to-right, non-overlapping replacement of `pat` by `rep`, driven by a
fuel counter so that it is structurally recursive. Each step consumes at
least one character, so fuel equal to the input length is enough. -/
def replaceFuel (pat rep : List Char) : Nat → List Char → List Char
  | 0, s => s
  | _ + 1, [] => []
  | n + 1, x :: xs =>
    if pat.isPrefixOf (x :: xs) then
      rep ++ replaceFuel pat rep n (List.drop (pat.length - 1) xs)
    else
      x :: replaceFuel pat rep n xs

/-- Python `s.replace(pat, rep)` for a non-empty pattern (every pattern used
by the program is non-empty; an empty pattern is mapped to the identity). -/
def pyReplace (s pat rep : String) : String :=
  if pat.data.isEmpty then s
  else String.mk (replaceFuel pat.data rep.data s.data.length s.data)

/-- Python `sep.join(xs)`. -/
def pyJoin (sep : String) : List String → String
  | [] => ""
  | [s] => s
  | s :: rest => s ++ sep ++ pyJoin sep rest

/-- Python `s.strip()`: remove leading and trailing whitespace. -/
def pyStrip (s : String) : String :=
  String.mk (((s.data.dropWhile Char.isWhitespace).reverse.dropWhile
    Char.isWhitespace).reverse)

/-- Python `s.endswith(t)`. -/
def pyEndsWith (s t : String) : Bool := t.data.isSuffixOf s.data

/-- Python `s.startswith(t)`. -/
def pyStartsWith (s t : String) : Bool := t.data.isPrefixOf s.data

/-- The platform path separator `os.sep` (POSIX flavour modelled). -/
def os_sep : String := "/"

/-- The platform path-list separator `os.pathsep` (POSIX flavour modelled). -/
def os_pathsep : String := ":"

/-- String normalization performed by the `pathlib.Path` constructor:
duplicate separators and single-dot components are dropped, a trailing
separator is stripped, a leading `/` (or the POSIX special case exactly
`//`) survives as the root, and the empty path becomes `.`. -/
def pathOfString (s : String) : String :=
  let comps := (pySplitChar '/' s).filter (fun c => c ≠ "" && c ≠ ".")
  let root :=
    if pyStartsWith s "//" && !(pyStartsWith s "///") then "//"
    else if pyStartsWith s "/" then "/"
    else ""
  let body := pyJoin "/" comps
  if root = "" && body = "" then "." else root ++ body

/-- Joining a normalized path with a relative component, `Path / component`,
as a string (every component this program joins is relative). -/
def joinPath (a b : String) : String := a ++ os_sep ++ b

/-- The `os` constraint of a rule: `rule['os']['name']` and the optional
`rule['os']['arch']`. -/
structure OsRule where
  name : String
  arch : Option String
  deriving DecidableEq

/-- A library rule: `rule['action']` and the optional `rule['os']`. -/
structure Rule where
  action : String
  os : Option OsRule
  deriving DecidableEq

/-- A library entry: the coordinate `lib['name']`, the optional rule list
`lib['rules']`, and the optional `lib['natives']` mapping (platform key to
classifier). -/
structure Library where
  name : String
  rules : Option (List Rule)
  natives : Option (List (String × String))
  deriving DecidableEq

/-- One element of `version_json['arguments']['game']`: either a plain
string literal or a conditional (non-string) object. -/
inductive GameArg
  | lit (s : String)
  | cond
  deriving DecidableEq

/-- The fields of the version descriptor consumed by the pipeline. `Option`
fields model the corresponding key being absent from the JSON object. -/
structure VersionJson where
  id : String
  mainClass : String
  assets : Option String
  minecraftArguments : Option String
  arguments_game : Option (List GameArg)
  libraries : Option (List Library)
  deriving DecidableEq

/-- Launch options: `java_path`, the optional `memory` key, and the optional
`use_system_memory` key. -/
structure LaunchOptions where
  java_path : String
  memory : Option Int
  use_system_memory : Option Bool
  deriving DecidableEq

/-- The OS name hardcoded by the source (`os_name = 'windows'`, line 104). -/
def currentOsName : String := "windows"

/-- `'x86_64' if platform.machine().endswith('64') else 'x86'` (line 105). -/
def os_arch (machine : String) : String :=
  if pyEndsWith machine "64" then "x86_64" else "x86"

/-- One iteration of the rule loop of `check_library_rules` (lines 109-134):
the running `should_include` value is threaded through; an action that is
neither `allow` nor `disallow` leaves it unchanged. -/
def applyRule (machine : String) (should_include : Bool) (rule : Rule) : Bool :=
  if rule.action = "allow" then
    match rule.os with
    | none => true
    | some o =>
      if o.name = currentOsName then
        match o.arch with
        | some a => a = os_arch machine
        | none => true
      else false
  else if rule.action = "disallow" then
    match rule.os with
    | none => false
    | some o => if o.name = currentOsName then false else should_include
  else should_include

/-- `check_library_rules` (lines 93-135): no rules, or an empty rule list,
means include; otherwise fold the rules left-to-right starting from `true`. -/
def check_library_rules (machine : String) (lib : Library) : Bool :=
  match lib.rules with
  | none => true
  | some [] => true
  | some rules => rules.foldl (applyRule machine) true

/-- The `try` body of `get_library_path` (lines 145-171). Subscripting the
split coordinate out of range raises, modelled as `.error`; the normal
returns are `.ok`. -/
def get_library_path_inner (mc_path : String) (ex : String → Bool)
    (machine : String) (lib : Library) : Except String (Option String) :=
  match pySplitChar ':' lib.name with
  | g :: artifact_id :: version :: _ =>
    let group_path := pyReplace g "." os_sep
    let base_path :=
      joinPath (joinPath (joinPath (joinPath mc_path "libraries") group_path)
        artifact_id) version
    let base_file := artifact_id ++ "-" ++ version
    match lib.natives.bind (fun m => m.lookup "windows") with
    | some cls =>
      let classifier :=
        pyReplace cls "${arch}" (if pyEndsWith machine "64" then "64" else "32")
      let native_path := joinPath base_path (base_file ++ "-" ++ classifier ++ ".jar")
      if ex native_path then .ok (some native_path)
      else
        let jar_path := joinPath base_path (base_file ++ ".jar")
        if ex jar_path then .ok (some jar_path) else .ok none
    | none =>
      let jar_path := joinPath base_path (base_file ++ ".jar")
      if ex jar_path then .ok (some jar_path) else .ok none
  | _ => .error "IndexError: list index out of range"

/-- `get_library_path` (lines 137-174): the `try` body, with the catch-all
`except` clause printing a diagnostic and returning `None`. -/
def get_library_path (mc_path : String) (ex : String → Bool)
    (machine : String) (lib : Library) : Option String :=
  match get_library_path_inner mc_path ex machine lib with
  | .ok r => r
  | .error _ => none

/-- The version's own primary artifact path,
`mc_path / 'versions' / id / f'{id}.jar'` (line 77). -/
def version_jar_path (mc_path id : String) : String :=
  joinPath (joinPath (joinPath mc_path "versions") id) (id ++ ".jar")

/-- The library loop of `build_libraries_path` (lines 81-89): entries
rejected by `check_library_rules` are skipped, accepted entries contribute
their resolved path when resolution yields one. -/
def collect_libraries (mc_path : String) (ex : String → Bool)
    (machine : String) : List Library → List String
  | [] => []
  | lib :: rest =>
    if check_library_rules machine lib then
      match get_library_path mc_path ex machine lib with
      | some p => p :: collect_libraries mc_path ex machine rest
      | none => collect_libraries mc_path ex machine rest
    else collect_libraries mc_path ex machine rest

/-- The `result` list of `build_libraries_path` (lines 76-89): the version
jar first, then the collected library paths (the loop runs only when the
`libraries` key is present). -/
def build_libraries_list (mc_path : String) (ex : String → Bool)
    (machine : String) (vj : VersionJson) : List String :=
  [version_jar_path mc_path vj.id] ++
    (match vj.libraries with
     | some libs => collect_libraries mc_path ex machine libs
     | none => [])

/-- `build_libraries_path` (lines 68-91): the `result` list joined with
`os.pathsep`. -/
def build_libraries_path (mc_path : String) (ex : String → Bool)
    (machine : String) (vj : VersionJson) : String :=
  pyJoin os_pathsep (build_libraries_list mc_path ex machine vj)

/-- The placeholder table of `build_game_arguments` (lines 204-214), in
source order. -/
def replacements_table (mc_path version_name player_name assets_index : String) :
    List (String × String) :=
  [("${auth_player_name}", player_name),
   ("${version_name}", version_name),
   ("${game_directory}", mc_path),
   ("${assets_root}", joinPath mc_path "assets"),
   ("${assets_index_name}", assets_index),
   ("${auth_uuid}", "00000000-0000-0000-0000-000000000000"),
   ("${auth_access_token}", "00000000000000000000000000000000"),
   ("${user_type}", "legacy"),
   ("${version_type}", "\"WMML 0.1.26\"")]

/-- `build_game_arguments` (lines 176-219): collect tokens from the legacy
`minecraftArguments` string (split on single spaces) and the string literals
of `arguments.game`, join with spaces, apply the placeholder table in order,
and strip the result. -/
def build_game_arguments (mc_path version_name player_name : String)
    (vj : VersionJson) : String :=
  let assets_index := vj.assets.getD ""
  let args :=
    (match vj.minecraftArguments with
     | some s => pySplitChar ' ' s
     | none => []) ++
    (match vj.arguments_game with
     | some l => l.filterMap (fun a => match a with
         | .lit s => some s
         | .cond => none)
     | none => [])
  let args_str := pyJoin " " args
  let args_str :=
    (replacements_table mc_path version_name player_name assets_index).foldl
      (fun s pv => pyReplace s pv.1 pv.2) args_str
  pyStrip args_str

/-- The natives directory embedded in several JVM properties (lines 273-276):
`mc_path / 'versions' / version_name / 'natives-windows-x86_64'`. -/
def natives_dir (mc_path version_name : String) : String :=
  joinPath (joinPath (joinPath mc_path "versions") version_name)
    "natives-windows-x86_64"

/-- The fixed JVM argument block `common_args` (lines 251-279). -/
def common_args (mc_path version_name : String) : List String :=
  ["-Dfile.encoding=GB18030",
   "-Dsun.stdout.encoding=GB18030",
   "-Dsun.stderr.encoding=GB18030",
   "-Djava.rmi.server.useCodebaseOnly=true",
   "-Dcom.sun.jndi.rmi.object.trustURLCodebase=false",
   "-Dcom.sun.jndi.cosnaming.object.trustURLCodebase=false",
   "-Dlog4j2.formatMsgNoLookups=true",
   "-Dlog4j.configurationFile=" ++
     joinPath (joinPath (joinPath mc_path "versions") version_name) "log4j2.xml",
   "-Dminecraft.client.jar=" ++
     joinPath (joinPath (joinPath mc_path "versions") version_name)
       (version_name ++ ".jar"),
   "-XX:+UnlockExperimentalVMOptions",
   "-XX:+UseG1GC",
   "-XX:G1NewSizePercent=20",
   "-XX:G1ReservePercent=20",
   "-XX:MaxGCPauseMillis=50",
   "-XX:G1HeapRegionSize=32m",
   "-XX:-UseAdaptiveSizePolicy",
   "-XX:-OmitStackTraceInFastThrow",
   "-XX:-DontCompileHugeMethods",
   "-Dfml.ignoreInvalidMinecraftCertificates=true",
   "-Dfml.ignorePatchDiscrepancies=true",
   "-XX:HeapDumpPath=MojangTricksIntelDriversForPerformance_javaw.exe_minecraft.exe.heapdump",
   "-Djava.library.path=" ++ natives_dir mc_path version_name,
   "-Djna.tmpdir=" ++ natives_dir mc_path version_name,
   "-Dorg.lwjgl.system.SharedLibraryExtractPath=" ++ natives_dir mc_path version_name,
   "-Dio.netty.native.workdir=" ++ natives_dir mc_path version_name,
   "-Dminecraft.launcher.brand=WMML",
   "-Dminecraft.launcher.version=0.1.26"]

/-- `build_java_command` (lines 221-286): java path, then memory flags when
`not use_system_memory and memory` is truthy, then the fixed block, `-cp`
with the classpath, the main class, and the space-split game arguments. -/
def build_java_command (mc_path version_name main_class libraries game_args : String)
    (options : LaunchOptions) : List String :=
  let java_path := options.java_path
  let memory := options.memory.getD 4096
  let use_system_memory := options.use_system_memory.getD false
  let command := [java_path]
  let command :=
    if use_system_memory = false ∧ memory ≠ 0 then
      command ++ ["-Xmx" ++ toString memory ++ "M", "-Xms" ++ toString memory ++ "M"]
    else command
  command ++ common_args mc_path version_name ++ ["-cp", libraries] ++
    [main_class] ++ pySplitChar ' ' game_args

/-- The root normalization of `launch_minecraft` (lines 22-25): wrap in
`Path`, and if the string does not end with `os.sep`, append `os.sep` and
wrap in `Path` again (which strips it back off). -/
def normalize_mc_path (s : String) : String :=
  let mc_path := pathOfString s
  if !(pyEndsWith mc_path os_sep) then pathOfString (mc_path ++ os_sep)
  else mc_path

/-- The descriptor path derived by `launch_minecraft` (line 28) from the
normalized root: `mc_path / 'versions' / version_name / f'{version_name}.json'`. -/
def launch_version_json_path (mc_path version_name : String) : String :=
  joinPath (joinPath (joinPath (normalize_mc_path mc_path) "versions")
    version_name) (version_name ++ ".json")

/-- Rule list `[allow(no-os), disallow(os=windows, no-arch)]`. -/
def c2Lib : Library :=
  { name := "org.lwjgl:lwjgl:3.3.1",
    rules := some [{ action := "allow", os := none },
                   { action := "disallow", os := some { name := "windows", arch := none } }],
    natives := none }

/-- The same entry with only the leading `allow(no-os)` rule. -/
def c2LibAllowOnly : Library :=
  { name := "org.lwjgl:lwjgl:3.3.1",
    rules := some [{ action := "allow", os := none }],
    natives := none }

/-- Rule list `[disallow(os=osx)]`: one disallow whose OS is not the
hardcoded current OS. -/
def c3Lib : Library :=
  { name := "ca.weblite:java-objc-bridge:1.1",
    rules := some [{ action := "disallow", os := some { name := "osx", arch := none } }],
    natives := none }

/-- Claim C2: rule evaluation folds left-to-right over a running boolean
initialized to true; an unconditional rule placed last decides the outcome
whatever came before (last-match-wins); the list
`[allow(no-os), disallow(os=current, no-arch)]` yields false, while the
prefix `[allow(no-os)]` alone yields true. -/
theorem check_library_rules_last_match_wins (machine : String) :
    (∀ (lib : Library) (rs : List Rule), lib.rules = some rs → rs ≠ [] →
      check_library_rules machine lib = rs.foldl (applyRule machine) true) ∧
    (∀ (rs : List Rule) (b : Bool),
      (rs ++ [({ action := "allow", os := none } : Rule)]).foldl (applyRule machine) b = true ∧
      (rs ++ [({ action := "disallow", os := some { name := "windows", arch := none } } : Rule)]).foldl
        (applyRule machine) b = false) ∧
    check_library_rules machine c2Lib = false ∧
    check_library_rules machine c2LibAllowOnly = true := by
  refine ⟨?_, ?_, rfl, rfl⟩
  · intro lib rs hl hne
    unfold check_library_rules
    rw [hl]
    cases rs with
    | nil => exact absurd rfl hne
    | cons r rest => rfl
  · intro rs b
    constructor <;> rw [List.foldl_append] <;> rfl

/-- Witness for C2 at a concrete machine string and the concrete rule list
of `c2Lib`. -/
theorem check_library_rules_last_match_wins_witness :
    check_library_rules "x86_64" c2Lib =
      [{ action := "allow", os := none },
       { action := "disallow", os := some { name := "windows", arch := none } }].foldl
        (applyRule "x86_64") true ∧
    check_library_rules "x86_64" c2Lib = false :=
  ⟨(check_library_rules_last_match_wins "x86_64").1 c2Lib _ rfl (by decide),
   (check_library_rules_last_match_wins "x86_64").2.2.1⟩

/-- Claim C3: a disallow rule whose OS constraint does not name the current
OS leaves the running include decision unchanged, for every prior value;
a library whose only rule is `disallow(os=other)` is therefore included. -/
theorem disallow_other_os_pass_through :
    (∀ (machine : String) (b : Bool) (r : Rule) (o : OsRule),
      r.action = "disallow" → r.os = some o → o.name ≠ currentOsName →
      applyRule machine b r = b) ∧
    ∀ (machine : String), check_library_rules machine c3Lib = true := by
  constructor
  · intro machine b r o ha ho hn
    simp only [applyRule, ha, ho]
    simp [hn]
  · intro machine
    rfl

/-- Witness for C3 at a concrete rule and machine string. -/
theorem disallow_other_os_pass_through_witness :
    applyRule "x86_64" true { action := "disallow", os := some { name := "osx", arch := none } } = true ∧
    check_library_rules "x86_64" c3Lib = true :=
  ⟨disallow_other_os_pass_through.1 "x86_64" true _ _ rfl rfl (by decide),
   disallow_other_os_pass_through.2 "x86_64"⟩

/-- A malformed entry: the coordinate has only two colon-separated parts. -/
def malformedLib : Library :=
  { name := "org.example:foo", rules := none, natives := none }

/-- A well-formed entry whose jar is absent from the filesystem. -/
def missingLib : Library :=
  { name := "org.example:foo:1.0", rules := none, natives := none }

/-- Counterexample to claim C1: on the malformed coordinate `org.example:foo`
the caught lookup failure makes `get_library_path` return `none` — the very
same outcome as the well-formed but not-found entry, not a surfaced error. -/
theorem get_library_path_malformed_returns_none :
    get_library_path ".minecraft" (fun _ => false) "x86_64" malformedLib = none ∧
    get_library_path ".minecraft" (fun _ => false) "x86_64" missingLib = none := by
  constructor <;> rfl

/-- Claim C1 (amended): for a coordinate with fewer than three
colon-separated parts, the `try` body of `get_library_path` raises (the
subscript error is a genuine exception inside the function), but the
catch-all `except` clause swallows it and the function returns `none`,
indistinguishable from the not-found outcome. -/
theorem get_library_path_malformed (mc_path : String) (ex : String → Bool)
    (machine : String) (lib : Library)
    (h : (pySplitChar ':' lib.name).length < 3) :
    get_library_path mc_path ex machine lib = none ∧
    ∃ e, get_library_path_inner mc_path ex machine lib = .error e := by
  have hmatch : get_library_path_inner mc_path ex machine lib =
      .error "IndexError: list index out of range" := by
    unfold get_library_path_inner
    match hp : pySplitChar ':' lib.name with
    | [] => rfl
    | [_] => rfl
    | [_, _] => rfl
    | _ :: _ :: _ :: _ => rw [hp] at h; simp at h; omega
  refine ⟨?_, ⟨_, hmatch⟩⟩
  unfold get_library_path
  rw [hmatch]

/-- Witness for C1 (amended) at the concrete malformed coordinate. -/
theorem get_library_path_malformed_witness :
    get_library_path ".minecraft" (fun _ => false) "x86_64" malformedLib = none ∧
    ∃ e, get_library_path_inner ".minecraft" (fun _ => false) "x86_64" malformedLib = .error e :=
  get_library_path_malformed ".minecraft" (fun _ => false) "x86_64" malformedLib
    (by decide)

/-- Claim C4: for a well-formed coordinate `g:a:v`, resolution prefers the
existing native-classifier jar `<base>/<a>-<v>-<classifier>.jar` (with
`${arch}` replaced by the current architecture token) when a `windows`
native classifier is declared, falls back to the plain jar
`<base>/<a>-<v>.jar` when that exists, and otherwise yields `none` — and
that `none` is a normal return of the `try` body, not a raised error. -/
theorem get_library_path_well_formed (mc_path : String) (ex : String → Bool)
    (machine : String) (lib : Library) (g a v : String)
    (h : pySplitChar ':' lib.name = [g, a, v]) :
    (get_library_path mc_path ex machine lib =
      (let base := joinPath (joinPath (joinPath (joinPath mc_path "libraries")
        (pyReplace g "." os_sep)) a) v
       let plain := joinPath base (a ++ "-" ++ v ++ ".jar")
       match lib.natives.bind (fun m => m.lookup "windows") with
       | some cls =>
         let classifier :=
           pyReplace cls "${arch}" (if pyEndsWith machine "64" then "64" else "32")
         let native_path := joinPath base (a ++ "-" ++ v ++ "-" ++ classifier ++ ".jar")
         if ex native_path then some native_path
         else if ex plain then some plain else none
       | none => if ex plain then some plain else none)) ∧
    get_library_path_inner mc_path ex machine lib =
      .ok (get_library_path mc_path ex machine lib) := by
  have hinner : get_library_path_inner mc_path ex machine lib =
      .ok (let base := joinPath (joinPath (joinPath (joinPath mc_path "libraries")
        (pyReplace g "." os_sep)) a) v
       let plain := joinPath base (a ++ "-" ++ v ++ ".jar")
       match lib.natives.bind (fun m => m.lookup "windows") with
       | some cls =>
         let classifier :=
           pyReplace cls "${arch}" (if pyEndsWith machine "64" then "64" else "32")
         let native_path := joinPath base (a ++ "-" ++ v ++ "-" ++ classifier ++ ".jar")
         if ex native_path then some native_path
         else if ex plain then some plain else none
       | none => if ex plain then some plain else none) := by
    simp only [get_library_path_inner, h]
    cases hn : lib.natives.bind (fun m => m.lookup "windows") with
    | none =>
      simp only [hn]
      split_ifs <;> rfl
    | some cls =>
      simp only [hn]
      split_ifs <;> rfl
  constructor
  · unfold get_library_path
    rw [hinner]
  · unfold get_library_path
    rw [hinner]

/-- Witness for C4: a concrete entry with a native classifier, an existence
oracle under which only the native jar exists, and the resolved path. -/
theorem get_library_path_well_formed_witness :
    pySplitChar ':' "org.lwjgl:lwjgl:3.3.1" = ["org.lwjgl", "lwjgl", "3.3.1"] ∧
    get_library_path ".minecraft"
      (fun s => s = ".minecraft/libraries/org/lwjgl/lwjgl/3.3.1/lwjgl-3.3.1-natives-windows-64.jar")
      "AMD64"
      { name := "org.lwjgl:lwjgl:3.3.1", rules := none,
        natives := some [("windows", "natives-windows-${arch}")] } =
      some ".minecraft/libraries/org/lwjgl/lwjgl/3.3.1/lwjgl-3.3.1-natives-windows-64.jar" := by
  refine ⟨by decide, ?_⟩
  rw [(get_library_path_well_formed ".minecraft"
    (fun s => s = ".minecraft/libraries/org/lwjgl/lwjgl/3.3.1/lwjgl-3.3.1-natives-windows-64.jar")
    "AMD64"
    { name := "org.lwjgl:lwjgl:3.3.1", rules := none,
      natives := some [("windows", "natives-windows-${arch}")] }
    "org.lwjgl" "lwjgl" "3.3.1" (by decide)).1]
  decide

/-- The library loop equals filtering by the rule evaluator and then keeping
the entries that resolve to a path. -/
theorem collect_libraries_eq (mc_path : String) (ex : String → Bool)
    (machine : String) (libs : List Library) :
    collect_libraries mc_path ex machine libs =
      (libs.filter (fun l => check_library_rules machine l)).filterMap
        (get_library_path mc_path ex machine) := by
  induction libs with
  | nil => rfl
  | cons lib rest ih =>
    unfold collect_libraries
    by_cases hr : check_library_rules machine lib
    · cases hp : get_library_path mc_path ex machine lib <;>
        simp [hr, hp, List.filter_cons, List.filterMap_cons, ih]
    · simp [hr, List.filter_cons, ih]

/-- Claim C5: the classpath list starts with `root/versions/<id>/<id>.jar`
unconditionally, followed by the resolved paths of exactly the entries the
rule evaluator accepts and that resolve to a path, in descriptor order and
without deduplication; the classpath string joins this list with the
platform path-list separator. -/
theorem build_libraries_path_spec (mc_path : String) (ex : String → Bool)
    (machine : String) (vj : VersionJson) :
    build_libraries_list mc_path ex machine vj =
      version_jar_path mc_path vj.id ::
        ((vj.libraries.getD []).filter (fun l => check_library_rules machine l)).filterMap
          (get_library_path mc_path ex machine) ∧
    build_libraries_path mc_path ex machine vj =
      pyJoin os_pathsep (build_libraries_list mc_path ex machine vj) := by
  refine ⟨?_, rfl⟩
  unfold build_libraries_list
  cases vj.libraries with
  | none => rfl
  | some libs => simp [collect_libraries_eq]

/-- A descriptor whose legacy argument string is the C6 template. -/
def c6Vj : VersionJson :=
  { id := "1.20.1", mainClass := "net.minecraft.client.main.Main",
    assets := none,
    minecraftArguments := some "--username ${auth_player_name} --uuid ${auth_uuid}",
    arguments_game := none, libraries := none }

/-- A descriptor whose legacy argument string holds a placeholder outside
the recognized set. -/
def c6VjUnknown : VersionJson :=
  { id := "1.20.1", mainClass := "net.minecraft.client.main.Main",
    assets := none,
    minecraftArguments := some "--demo ${unknown_placeholder}",
    arguments_game := none, libraries := none }

/-- A descriptor whose legacy argument string carries surrounding spaces. -/
def c6VjSpaces : VersionJson :=
  { id := "1.20.1", mainClass := "net.minecraft.client.main.Main",
    assets := none,
    minecraftArguments := some "  --demo  ",
    arguments_game := none, libraries := none }

/-- Claim C6: argument templating substitutes the fixed placeholder table
literally over the space-joined token string and trims the result; the C6
template with player name Alice yields exactly
`--username Alice --uuid 00000000-0000-0000-0000-000000000000`, a
placeholder outside the table is left untouched verbatim, and surrounding
whitespace is trimmed. -/
theorem build_game_arguments_spec :
    build_game_arguments ".minecraft" "1.20.1" "Alice" c6Vj =
      "--username Alice --uuid 00000000-0000-0000-0000-000000000000" ∧
    build_game_arguments ".minecraft" "1.20.1" "Alice" c6VjUnknown =
      "--demo ${unknown_placeholder}" ∧
    build_game_arguments ".minecraft" "1.20.1" "Alice" c6VjSpaces = "--demo" := by
  refine ⟨?_, ?_, ?_⟩ <;> decide

/-- Launch options with the memory key present but equal to 0 and system
memory off. -/
def zeroMemoryOptions : LaunchOptions :=
  { java_path := "java", memory := some 0, use_system_memory := some false }

/-- Counterexample to claim C7: with `use_system_memory` false and the
memory key present with value 0, neither `-Xmx0M` nor `-Xms0M` appears in
the command — Python's truthiness test `and memory` drops the flags for a
present-but-zero value, so "a memory value is present" alone does not make
the flags appear. -/
theorem build_java_command_zero_memory :
    "-Xmx0M" ∉ build_java_command ".minecraft" "1.20.1"
      "net.minecraft.client.main.Main" "cp" "--demo" zeroMemoryOptions ∧
    "-Xms0M" ∉ build_java_command ".minecraft" "1.20.1"
      "net.minecraft.client.main.Main" "cp" "--demo" zeroMemoryOptions := by
  constructor <;> decide

/-- Claim C7 (amended): when `use_system_memory` is true the command is
computed exactly as if no memory value were supplied (so no `-Xmx`/`-Xms`
tokens are contributed, whatever the memory value); when `use_system_memory`
is false and a nonzero memory value is present, `-Xmx<value>M` is appended
immediately followed by `-Xms<value>M` with the same value, right after the
java path. -/
theorem build_java_command_memory_flags (mc_path version_name main_class
    libraries game_args java_path : String) (m : Int) :
    build_java_command mc_path version_name main_class libraries game_args
      { java_path := java_path, memory := some m, use_system_memory := some true } =
    build_java_command mc_path version_name main_class libraries game_args
      { java_path := java_path, memory := none, use_system_memory := some true } ∧
    (m ≠ 0 →
      build_java_command mc_path version_name main_class libraries game_args
        { java_path := java_path, memory := some m, use_system_memory := some false } =
      java_path :: ("-Xmx" ++ toString m ++ "M") :: ("-Xms" ++ toString m ++ "M") ::
        (common_args mc_path version_name ++ ["-cp", libraries] ++
          [main_class] ++ pySplitChar ' ' game_args)) := by
  constructor
  · simp [build_java_command]
  · intro hm
    simp [build_java_command, hm]

/-- Witness for C7 (amended) at memory value 2048. -/
theorem build_java_command_memory_flags_witness :
    build_java_command "." "1" "Main" "cp" "" { java_path := "java", memory := some 2048, use_system_memory := some false } =
      "java" :: "-Xmx2048M" :: "-Xms2048M" ::
        (common_args "." "1" ++ ["-cp", "cp"] ++ ["Main"] ++ pySplitChar ' ' "") :=
  (build_java_command_memory_flags "." "1" "Main" "cp" "" "java" 2048).2 (by decide)

/-- Appending a one-element list puts that element last. -/
theorem getLast_append_singleton {α : Type} (l : List α) (a : α) :
    (l ++ [a]).getLast? = some a := by
  rw [List.getLast?_append_cons]
  rfl

/-- Dropping the last element of `l ++ [a]` gives back `l`. -/
theorem dropLast_append_singleton {α : Type} (l : List α) (a : α) :
    (l ++ [a]).dropLast = l := by
  simp

/-- Claim C9: with an empty game-arguments string, the command does not end
with the entry-point class: splitting the empty string on spaces yields one
empty-string token, so the last token is the empty string and the class name
is the token before it. -/
theorem build_java_command_empty_args (mc_path version_name main_class
    libraries : String) (options : LaunchOptions) :
    (build_java_command mc_path version_name main_class libraries "" options).getLast? =
      some "" ∧
    (build_java_command mc_path version_name main_class libraries "" options).dropLast.getLast? =
      some main_class := by
  have hsplit : pySplitChar ' ' "" = [""] := rfl
  unfold build_java_command
  rw [hsplit]
  constructor
  · rw [show ∀ l : List String, l ++ common_args mc_path version_name ++
      ["-cp", libraries] ++ [main_class] ++ [""] =
      (l ++ common_args mc_path version_name ++ ["-cp", libraries] ++ [main_class]) ++ [""]
      from fun _ => rfl]
    exact getLast_append_singleton _ _
  · rw [show ∀ l : List String, l ++ common_args mc_path version_name ++
      ["-cp", libraries] ++ [main_class] ++ [""] =
      (l ++ common_args mc_path version_name ++ ["-cp", libraries] ++ [main_class]) ++ [""]
      from fun _ => rfl]
    rw [dropLast_append_singleton]
    exact getLast_append_singleton _ _

/-- Claim C10: when the memory key is absent and `use_system_memory` is
false or absent, the default 4096 applies: the command is the java path,
`-Xmx4096M`, `-Xms4096M`, then the fixed block, classpath, main class and
game arguments. -/
theorem build_java_command_default_memory (mc_path version_name main_class
    libraries game_args java_path : String) (b : Option Bool)
    (h : b = some false ∨ b = none) :
    build_java_command mc_path version_name main_class libraries game_args
      { java_path := java_path, memory := none, use_system_memory := b } =
    java_path :: "-Xmx4096M" :: "-Xms4096M" ::
      (common_args mc_path version_name ++ ["-cp", libraries] ++
        [main_class] ++ pySplitChar ' ' game_args) := by
  rcases h with h | h <;> subst h <;> simp [build_java_command] <;> decide

/-- Witness for C10 with `use_system_memory` explicitly false. -/
theorem build_java_command_default_memory_witness :
    build_java_command "." "1" "Main" "cp" "--demo"
      { java_path := "java", memory := none, use_system_memory := some false } =
    "java" :: "-Xmx4096M" :: "-Xms4096M" ::
      (common_args "." "1" ++ ["-cp", "cp"] ++ ["Main"] ++ pySplitChar ' ' "--demo") :=
  build_java_command_default_memory "." "1" "Main" "cp" "--demo" "java"
    (some false) (Or.inl rfl)

/-- Counterexample to claim C8: for the root `.minecraft` the normalized
root is `.minecraft` itself — the `Path` constructor strips the appended
trailing separator again, and nothing makes the path absolute, so the
normalized root neither ends with the separator nor is absolute. -/
theorem normalize_mc_path_not_terminated :
    normalize_mc_path ".minecraft" = ".minecraft" ∧
    pyEndsWith (normalize_mc_path ".minecraft") os_sep = false ∧
    pyStartsWith (normalize_mc_path ".minecraft") os_sep = false := by
  refine ⟨rfl, ?_, ?_⟩ <;> decide

/-- Claim C8 (amended): the launch orchestrator normalizes the root only
through the `Path` constructor's string normalization (duplicate separators
and single-dot components collapse, a trailing separator is stripped — the
explicitly appended separator included — and the path is not made
absolute), and the descriptor path is derived from this normalized root. -/
theorem launch_normalizes_root (s version_name : String) :
    launch_version_json_path s version_name =
      joinPath (joinPath (joinPath (normalize_mc_path s) "versions")
        version_name) (version_name ++ ".json") ∧
    normalize_mc_path "/opt/minecraft/" = "/opt/minecraft" ∧
    normalize_mc_path "a//b/./c" = "a/b/c" := by
  refine ⟨rfl, ?_, ?_⟩ <;> decide

end WMML
